import Mathlib

/-
Verification development for the batch collation and speaker-recognition
evaluation code of this repository.

Shallow embedding conventions:
- Python exceptions are modelled with `Except Err`; `Err` collects the error
  kinds the spec names (`InvalidInput`, `ShapeMismatch`, ...) plus raw
  `ValueError` / `AssertionError` sites, and exception propagation is modelled
  by match / bind on `Except`.
- Audio samples are modelled as their 1-D waveform on the padding axis
  (a `List ℚ`); on a 1-D tensor, `tensor.squeeze()` is the identity and
  `tensor.shape[-1]` is the list length.
- A torch tensor that only has to carry data and a device (for `.to(device)`)
  is modelled as a record of its data and a device tag.
- Python dicts keyed by strings are modelled as `String → Option _` maps
  (the ground-truth container) or as association lists in sample order
  (`debug_info`, `result_dict`); `d[k] = v` is pointwise functional update.
-/

namespace SpecProof

abbrev Device := String

/-- Opaque per-sample debug payload (`BatchDebugInfo` from the data pipeline);
its contents are never inspected by the code under verification, only carried. -/
structure BatchDebugInfo where
  payload : String
deriving DecidableEq

/-- Values stored in a sample's string-keyed `ground_truth_container` dict:
a scalar integer tensor (speaker id index), a 1-D integer tensor
(transcription int sequence), or a transcription string. -/
inductive GTValue where
  | vint (i : Int)
  | vseq (s : List Int)
  | vstr (s : String)
deriving DecidableEq

/-- Error kinds. `invalidInput` stands for the malformed-batch exceptions torch
raises (IndexError on an empty batch, RuntimeError on a stacking shape
mismatch); `shapeMismatch` for the ValueError "batch dimension is missing or
incorrect"; `valueError` for other explicit `raise ValueError(msg)` sites;
`assertionFailed` for a failing `assert`. -/
inductive Err where
  | invalidInput
  | shapeMismatch
  | valueError (msg : String)
  | assertionFailed
deriving DecidableEq

/-- Modelled from the spec: `AudioDataSample` lives in src/data/pipeline/base.py,
which is not under src/. Per the spec's data model, a Sample is "an audio
waveform/feature array of variable length, a label/target payload ..., a unique
string key, optional debug metadata"; batches.py accesses exactly the fields
`key`, `audio`, `debug_info` and the dict `ground_truth_container`. -/
structure AudioDataSample where
  key : String
  audio : List ℚ
  debug_info : Option BatchDebugInfo
  ground_truth_container : String → Option GTValue

/-- Pointwise update of a string-keyed dict: `d[k] = v`. -/
def dictSet (c : String → Option GTValue) (k : String) (v : GTValue) :
    String → Option GTValue :=
  fun q => if q = k then some v else c q

/-- Exception-propagating sequencing: evaluate the first computation and feed
its value to the rest; a raise aborts everything after it. -/
def ebind {α β : Type} (x : Except Err α) (f : α → Except Err β) : Except Err β :=
  match x with
  | .error e => .error e
  | .ok a => f a

theorem ebind_ok {α β : Type} (a : α) (f : α → Except Err β) :
    ebind (.ok a) f = f a := rfl

theorem ebind_error {α β : Type} (e : Err) (f : α → Except Err β) :
    ebind (.error e) f = .error e := rfl

/-- Exception-propagating `mapM` over `Except`, the meaning of a Python loop
or comprehension whose body may raise: the first raise aborts the whole
computation. -/
def exceptMapM {α β : Type} (f : α → Except Err β) : List α → Except Err (List β)
  | [] => .ok []
  | a :: l =>
    ebind (f a) (fun b => ebind (exceptMapM f l) (fun bs => .ok (b :: bs)))

/-- External-library model of `torch.utils.data._utils.collate.default_collate`
on a list of strings: its first line `elem = batch[0]` raises on an empty
batch; the string branch returns the batch unchanged. -/
def torch_default_collate_str (batch : List String) : Except Err (List String) :=
  match batch with
  | [] => .error .invalidInput
  | _ :: _ => .ok batch

/-- External-library model of `default_collate` on a list of 1-D float tensors:
raises on an empty batch, stacks along a new leading axis when all shapes
agree, and raises (RuntimeError) when two shapes differ. -/
def torch_default_collate_audio (batch : List (List ℚ)) :
    Except Err (List (List ℚ)) :=
  match batch with
  | [] => .error .invalidInput
  | x :: xs =>
    if xs.all (fun y => y.length == x.length) then .ok batch
    else .error .invalidInput

/-- External-library model of `default_collate` on the list of ground-truth
values pulled out of the containers: raises on an empty batch, stacks scalar
integer tensors into one `[BATCH_SIZE]` tensor, and raises on any
non-scalar-tensor element. -/
def torch_default_collate_gt (batch : List GTValue) : Except Err (List Int) :=
  match batch with
  | [] => .error .invalidInput
  | _ :: _ =>
    exceptMapM
      (fun v =>
        match v with
        | .vint i => .ok i
        | _ => .error .invalidInput)
      batch

/-- A 2-D float tensor (`[BATCH_SIZE, max_len]` audio input) as its list of
rows plus the device it lives on. -/
structure Tensor2 where
  data : List (List ℚ)
  device : Device
deriving DecidableEq

/-- A 1-D integer tensor (`[BATCH_SIZE]` speaker labels) plus its device. -/
structure TensorI where
  data : List Int
  device : Device
deriving DecidableEq

/-- A 2-D integer tensor (`[BATCH_SIZE, MAX_SEQUENCE_LENGTH]` transcription
labels) plus its device. -/
structure TensorI2 where
  data : List (List Int)
  device : Device
deriving DecidableEq

/-- Modelled from the spec: `collate_append_constant` lives in
src/data/audio_collate_pad.py, which is not under src/. Per the spec's
pad-right mode it "computes `max_len` over the batch on the padding axis,
right-pads every sample's array to `max_len` with a constant (zero) fill,
stacks results". -/
def collate_append_constant (samples : List (List ℚ)) : List (List ℚ) :=
  let max_len := (samples.map List.length).foldr max 0
  samples.map (fun s => s ++ List.replicate (max_len - s.length) 0)

/-- The maximum sample length over a batch, the `max_len` of the spec's
pad-right mode. -/
def maxAudioLen (samples : List (List ℚ)) : Nat :=
  (samples.map List.length).foldr max 0

structure SpeakerClassificationDataBatch where
  batch_size : Nat
  keys : List String
  audio_input : Tensor2
  audio_input_lengths : List Nat
  ground_truth : TensorI
  debug_info : List (String × Option BatchDebugInfo)
deriving DecidableEq

def SpeakerClassificationDataBatch.to
    (self : SpeakerClassificationDataBatch) (device : Device) :
    SpeakerClassificationDataBatch :=
  { batch_size := self.batch_size
    keys := self.keys
    audio_input := { data := self.audio_input.data, device := device }
    audio_input_lengths := self.audio_input_lengths
    ground_truth := { data := self.ground_truth.data, device := device }
    debug_info := self.debug_info }

def SpeakerClassificationDataBatch.set_gt_container
    (sample : AudioDataSample) (speaker_id_idx : Int) : AudioDataSample :=
  { sample with
    ground_truth_container :=
      dictSet sample.ground_truth_container "speaker_id_idx"
        (.vint speaker_id_idx) }

def SpeakerClassificationDataBatch.get_gt_container
    (sample : AudioDataSample) : Except Err GTValue :=
  match sample.ground_truth_container "speaker_id_idx" with
  | some v => .ok v
  | none => .error (.valueError "expected key speaker_id_idx in data sample object")

def SpeakerClassificationDataBatch.default_collate_fn
    (lst : List AudioDataSample) :
    Except Err SpeakerClassificationDataBatch :=
  ebind (torch_default_collate_str (lst.map (fun s => s.key))) (fun keys =>
  ebind (torch_default_collate_audio (lst.map (fun s => s.audio))) (fun audio_input =>
  let input_lengths := lst.map (fun s => s.audio.length)
  ebind (exceptMapM SpeakerClassificationDataBatch.get_gt_container lst) (fun gts =>
  ebind (torch_default_collate_gt gts) (fun ground_truth =>
  .ok
    { batch_size := lst.length
      keys := keys
      audio_input := { data := audio_input, device := "cpu" }
      audio_input_lengths := input_lengths
      ground_truth := { data := ground_truth, device := "cpu" }
      debug_info := lst.map (fun s => (s.key, s.debug_info)) }))))

def SpeakerClassificationDataBatch.pad_right_collate_fn
    (lst : List AudioDataSample) :
    Except Err SpeakerClassificationDataBatch :=
  ebind (torch_default_collate_str (lst.map (fun s => s.key))) (fun keys =>
  let audio_input := collate_append_constant (lst.map (fun s => s.audio))
  let input_lengths := lst.map (fun s => s.audio.length)
  ebind (exceptMapM SpeakerClassificationDataBatch.get_gt_container lst) (fun gts =>
  ebind (torch_default_collate_gt gts) (fun ground_truth =>
  .ok
    { batch_size := lst.length
      keys := keys
      audio_input := { data := audio_input, device := "cpu" }
      audio_input_lengths := input_lengths
      ground_truth := { data := ground_truth, device := "cpu" }
      debug_info := lst.map (fun s => (s.key, s.debug_info)) })))

structure SpeechRecognitionDataBatch where
  batch_size : Nat
  keys : List String
  audio_input : Tensor2
  ground_truth : TensorI2
  audio_input_lengths : List Nat
  ground_truth_sequence_length : List Nat
  ground_truth_strings : List String
  debug_info : List (String × Option BatchDebugInfo)
deriving DecidableEq

def SpeechRecognitionDataBatch.to
    (self : SpeechRecognitionDataBatch) (device : Device) :
    SpeechRecognitionDataBatch :=
  { batch_size := self.batch_size
    keys := self.keys
    audio_input := { data := self.audio_input.data, device := device }
    audio_input_lengths := self.audio_input_lengths
    ground_truth := { data := self.ground_truth.data, device := device }
    ground_truth_strings := self.ground_truth_strings
    ground_truth_sequence_length := self.ground_truth_sequence_length
    debug_info := self.debug_info }

def SpeechRecognitionDataBatch.set_gt_container
    (sample : AudioDataSample) (transcription : String)
    (transcription_int_sequence : List Int) : Except Err AudioDataSample :=
  if transcription_int_sequence.length = transcription.length then
    .ok
      { sample with
        ground_truth_container :=
          dictSet
            (dictSet sample.ground_truth_container "transcription"
              (.vstr transcription))
            "transcription_int_sequence" (.vseq transcription_int_sequence) }
  else .error .assertionFailed

def SpeechRecognitionDataBatch.get_gt_container
    (sample : AudioDataSample) : Except Err (GTValue × GTValue) :=
  match sample.ground_truth_container "transcription" with
  | none => .error (.valueError "expected key transcription in data sample object")
  | some transcription =>
    match sample.ground_truth_container "transcription_int_sequence" with
    | none =>
      .error (.valueError "expected key transcription_int_sequence in data sample object")
    | some transcription_int_sequence =>
      .ok (transcription, transcription_int_sequence)

/-
Embedding of src/pl_modules/speaker_recognition_module.py.

The neural network (`compute_speaker_embedding`) and the evaluator
(`CosineDistanceEvaluator.evaluate`) are abstract collaborators of the module;
they are passed as function parameters. `EvaluationPair` and `EmbeddingSample`
come from src/evaluation/speaker/speaker_recognition_evaluator.py, which is not
under src/; they are modelled from the spec.
-/

/-- Modelled from the spec: `EvaluationPair` (src/evaluation, not under src/)
is "two sample keys and a boolean same-identity label". -/
structure EvaluationPair where
  same_speaker : Bool
  sample1_id : String
  sample2_id : String
deriving DecidableEq

/-- An embedding payload: a single vector, or a list of sub-vectors for
multi-view scoring. -/
inductive EmbValue where
  | one (v : List ℚ)
  | many (vs : List (List ℚ))
deriving DecidableEq

/-- Modelled from the spec: `EmbeddingSample` (src/evaluation, not under src/)
is "a key and one (or a list of, for multi-view) embedding vector(s)". -/
structure EmbeddingSample where
  sample_id : String
  embedding : EmbValue
deriving DecidableEq

/-- The `embedding` entry of a step-output dict: either one 2-D tensor
(modelled as its list of first-axis slices, each slice already squeezed to a
vector) or a list of such tensors. -/
inductive EmbTensor where
  | single (rows : List (List ℚ))
  | multi (tensors : List (List (List ℚ)))
deriving DecidableEq

/-- One per-batch output dict handed to `extract_embedding_sample_list`:
keys `embedding` and `sample_id`. -/
structure StepOutput where
  embedding : EmbTensor
  sample_id : List String
deriving DecidableEq

/-- The body of the extraction loop for one output dict `d`. In the
single-tensor case the guard `len(sample_id_list) == embedding_tensor.shape[0]`
makes the subsequent indexing `embedding_tensor[idx, :]` total, so the loop is
the zip of keys with tensor slices. In the list case the guard only inspects
`embedding_tensor[0]` (raising IndexError on an empty list), and the indexing
`e[idx, :]` into the remaining tensors may still raise. -/
def extract_batch (d : StepOutput) : Except Err (List EmbeddingSample) :=
  match d.embedding with
  | .single rows =>
    if d.sample_id.length = rows.length then
      .ok
        ((d.sample_id.zip rows).map
          (fun p => { sample_id := p.1, embedding := .one p.2 }))
    else .error .shapeMismatch
  | .multi tensors =>
    match tensors with
    | [] => .error .invalidInput
    | t0 :: _ =>
      if d.sample_id.length = t0.length then
        exceptMapM
          (fun p =>
            ebind
              (exceptMapM
                (fun e =>
                  match e.get? p.1 with
                  | some r => Except.ok r
                  | none => Except.error Err.invalidInput)
                tensors)
              (fun vs => .ok { sample_id := p.2, embedding := .many vs }))
          d.sample_id.enum
      else .error .shapeMismatch

/-- `extract_embedding_sample_list`: accumulate the per-batch embedding
samples of every output dict, in order; the first malformed batch raises. -/
def extract_embedding_sample_list (outputs : List StepOutput) :
    Except Err (List EmbeddingSample) :=
  ebind (exceptMapM extract_batch outputs) (fun ls => .ok ls.flatten)

/-- The per-partition record the evaluator returns, with keys `eer` and
`eer_threshold`; the source's re-wrapping of each value into a singleton
tensor `t.Tensor([v])` is a boxing step that does not change the values. -/
structure EvalResult where
  eer : ℚ
  eer_threshold : ℚ
deriving DecidableEq

/-- `evaluate_embeddings`: extract the embedding-sample list, then hand pairs
and embeddings to the evaluator (an abstract collaborator, passed as a
function together with its `print_info` flag). -/
def evaluate_embeddings
    (evaluate : List EvaluationPair → List EmbeddingSample → Bool → EvalResult)
    (outputs : List StepOutput) (pairs : List EvaluationPair)
    (print_info : Bool) : Except Err EvalResult :=
  ebind (extract_embedding_sample_list outputs)
    (fun embedding_list => .ok (evaluate pairs embedding_list print_info))

/-- `test_epoch_end` after its normalization step (when `len(test_pairs) == 1`
the source wraps the flat single-dataloader output list as `[outputs]`; the
argument here is the normalized list with one entry per test dataloader).
The loop body indexes `test_names[idx]` and `test_pairs[idx]`, which raises
when either list is shorter than `outputs`, and fills `result_dict` with the
two per-partition entries. -/
def test_epoch_end
    (evaluate : List EvaluationPair → List EmbeddingSample → Bool → EvalResult)
    (test_pairs : List (List EvaluationPair)) (test_names : List String)
    (outputs : List (List StepOutput)) : Except Err (List (String × ℚ)) :=
  ebind
    (exceptMapM
      (fun idx =>
        match test_names.get? idx, test_pairs.get? idx with
        | some key, some tp =>
          ebind (evaluate_embeddings evaluate ((outputs.get? idx).getD []) tp true)
            (fun results =>
              .ok
                [("test_eer_" ++ key, results.eer),
                 ("test_eer_threshold_" ++ key, results.eer_threshold)])
        | _, _ => .error .invalidInput)
      (List.range outputs.length))
    (fun entries => .ok entries.flatten)

/-- A torch float tensor with an explicit shape, for the shape-sensitive
reshaping in `test_step`: `shape` is the list of dimension extents and `data`
the flattened contents. -/
structure PTensor where
  shape : List Nat
  data : List ℚ
  device : Device
deriving DecidableEq

/-- `embedding[None, :]`: prepend a new leading axis of extent 1. -/
def PTensor.unsqueeze0 (x : PTensor) : PTensor :=
  { x with shape := 1 :: x.shape }

/-- The dict returned by `test_step`. -/
structure TestStepOutput where
  embedding : PTensor
  sample_id : List String
deriving DecidableEq

/-- `test_step`: reject any batch whose size is not 1, compute the embedding,
reshape a 1-D embedding of extent `speaker_embedding_size` via
`embedding[None, :]`, check the three asserts, then
`t.stack([embedding.detach().to(cpu)])` and return it with the batch keys. -/
def test_step
    (compute_speaker_embedding : Tensor2 → PTensor)
    (speaker_embedding_size : Nat)
    (batch : SpeakerClassificationDataBatch) : Except Err TestStepOutput :=
  if batch.batch_size ≠ 1 then
    .error (.valueError "expecting a batch size of 1 for evaluation")
  else
    let e0 := compute_speaker_embedding batch.audio_input
    let embedding :=
      if e0.shape.length = 1 ∧ e0.shape.headD 0 = speaker_embedding_size then
        e0.unsqueeze0
      else e0
    if embedding.shape.length ≠ 2 then .error .assertionFailed
    else if embedding.shape.headD 0 ≠ batch.batch_size then .error .assertionFailed
    else if embedding.shape.getD 1 0 ≠ speaker_embedding_size then
      .error .assertionFailed
    else
      .ok
        { embedding :=
            { shape := 1 :: embedding.shape, data := embedding.data
              device := "cpu" }
          sample_id := batch.keys }

/-
Concrete instances, used to exercise the definitions at explicit inputs.
-/

/-- A sample with the given key and audio whose speaker-id ground truth has
been stored (id 0). -/
def mkSample (key : String) (audio : List ℚ) : AudioDataSample :=
  { key := key
    audio := audio
    debug_info := none
    ground_truth_container :=
      fun q => if q = "speaker_id_idx" then some (.vint 0) else none }

/-- A sample with an empty ground-truth container. -/
def blankSample : AudioDataSample :=
  { key := "k"
    audio := []
    debug_info := none
    ground_truth_container := fun _ => none }

/-- The spec's end-to-end collation example: three samples with padding-axis
lengths 5, 8 and 3. -/
def wlist583 : List AudioDataSample :=
  [mkSample "a" [1, 2, 3, 4, 5],
   mkSample "b" [1, 2, 3, 4, 5, 6, 7, 8],
   mkSample "c" [1, 2, 3]]

/-- A two-sample batch with padding-axis lengths 2 and 3. -/
def wlist23 : List AudioDataSample :=
  [mkSample "a" [4, 5], mkSample "b" [6, 7, 8]]

/-- The batch obtained by default-collating the single sample
`mkSample "a" [1]`. -/
def batchA : SpeakerClassificationDataBatch :=
  { batch_size := 1
    keys := ["a"]
    audio_input := { data := [[1]], device := "cpu" }
    audio_input_lengths := [1]
    ground_truth := { data := [0], device := "cpu" }
    debug_info := [("a", none)] }

/-- A step output whose key-list length (2) disagrees with its embedding
array's leading dimension (1). -/
def outMismatch : StepOutput :=
  { embedding := .single [[1, 2]], sample_id := ["a", "b"] }

/-- A well-formed step output: one key, one embedding row. -/
def outOk : StepOutput :=
  { embedding := .single [[1]], sample_id := ["a"] }

/-- A constant evaluator collaborator. -/
def evalConst : List EvaluationPair → List EmbeddingSample → Bool → EvalResult :=
  fun _ _ _ => { eer := 1 / 2, eer_threshold := 3 / 4 }

/-- The result dict produced for one partition named `x` under `evalConst`. -/
def dictW : List (String × ℚ) :=
  [("test_eer_x", 1 / 2), ("test_eer_threshold_x", 3 / 4)]

/-- An embedding network returning a 1-D embedding of extent 3. -/
def computeW : Tensor2 → PTensor :=
  fun _ => { shape := [3], data := [5, 6, 7], device := "cuda" }

/-- A size-1 batch for `test_step`. -/
def batchW1 : SpeakerClassificationDataBatch :=
  { batch_size := 1
    keys := ["a"]
    audio_input := { data := [[1]], device := "cpu" }
    audio_input_lengths := [1]
    ground_truth := { data := [0], device := "cpu" }
    debug_info := [("a", none)] }

/-- A size-2 batch, rejected by `test_step`. -/
def batchW2 : SpeakerClassificationDataBatch :=
  { batch_size := 2
    keys := ["a", "b"]
    audio_input := { data := [[1], [2]], device := "cpu" }
    audio_input_lengths := [1, 1]
    ground_truth := { data := [0, 1], device := "cpu" }
    debug_info := [("a", none), ("b", none)] }

end SpecProof

namespace SpecProof

/-
Helper lemmas.
-/

theorem exceptMapM_ok_of_forall {α β : Type} (f : α → Except Err β) :
    ∀ l : List α, (∀ a ∈ l, ∃ b, f a = .ok b) →
      ∃ ys, exceptMapM f l = .ok ys ∧
        List.Forall₂ (fun a b => f a = Except.ok b) l ys := by
  intro l
  induction l with
  | nil => intro _; exact ⟨[], rfl, List.Forall₂.nil⟩
  | cons a l ih =>
    intro h
    obtain ⟨b, hb⟩ := h a (List.mem_cons_self a l)
    obtain ⟨ys, hys, hall⟩ := ih (fun x hx => h x (List.mem_cons_of_mem a hx))
    exact ⟨b :: ys, by simp [exceptMapM, ebind, hb, hys], List.Forall₂.cons hb hall⟩

theorem exceptMapM_ok_mem {α β : Type} (f : α → Except Err β) :
    ∀ (l : List α) (ys : List β), exceptMapM f l = .ok ys →
      ∀ a ∈ l, ∃ b ∈ ys, f a = .ok b := by
  intro l
  induction l with
  | nil => intro ys _ a ha; cases ha
  | cons x l ih =>
    intro ys hys a ha
    simp only [exceptMapM] at hys
    cases hfx : f x with
    | error e =>
      simp only [hfx, ebind_error] at hys
      exact Except.noConfusion hys
    | ok b =>
      simp only [hfx, ebind_ok] at hys
      cases hrest : exceptMapM f l with
      | error e =>
        simp only [hrest, ebind_error] at hys
        exact Except.noConfusion hys
      | ok bs =>
        simp only [hrest, ebind_ok] at hys
        cases hys
        rcases List.mem_cons.mp ha with rfl | ha
        · exact ⟨b, List.mem_cons_self b bs, hfx⟩
        · obtain ⟨c, hc, hfc⟩ := ih bs hrest a ha
          exact ⟨c, List.mem_cons_of_mem b hc, hfc⟩

theorem torch_default_collate_str_ok (l ys : List String)
    (h : torch_default_collate_str l = .ok ys) : ys = l := by
  cases l with
  | nil => cases h
  | cons x xs => rw [torch_default_collate_str] at h; cases h; rfl

theorem torch_default_collate_audio_ok (l ys : List (List ℚ))
    (h : torch_default_collate_audio l = .ok ys) : ys = l := by
  cases l with
  | nil => cases h
  | cons x xs =>
    rw [torch_default_collate_audio] at h
    by_cases hall : xs.all (fun y => y.length == x.length)
    · rw [if_pos hall] at h; cases h; rfl
    · rw [if_neg hall] at h; cases h

theorem get_gt_ok_of_has (s : AudioDataSample)
    (h : ∃ i, s.ground_truth_container "speaker_id_idx" = some (.vint i)) :
    ∃ i, SpeakerClassificationDataBatch.get_gt_container s = .ok (.vint i) := by
  obtain ⟨i, hi⟩ := h
  exact ⟨i, by rw [SpeakerClassificationDataBatch.get_gt_container, hi]⟩

theorem gts_ok (lst : List AudioDataSample)
    (hgt : ∀ s ∈ lst, ∃ i, s.ground_truth_container "speaker_id_idx" = some (.vint i)) :
    ∃ gl, exceptMapM SpeakerClassificationDataBatch.get_gt_container lst = .ok gl ∧
      gl.length = lst.length ∧ ∀ v ∈ gl, ∃ i, v = GTValue.vint i := by
  induction lst with
  | nil => exact ⟨[], rfl, rfl, by intro v hv; cases hv⟩
  | cons s l ih =>
    obtain ⟨i, hi⟩ := get_gt_ok_of_has s (hgt s (List.mem_cons_self s l))
    obtain ⟨gl, hgl, hlen, hall⟩ := ih (fun x hx => hgt x (List.mem_cons_of_mem s hx))
    refine ⟨.vint i :: gl, by simp [exceptMapM, ebind, hi, hgl], by simp [hlen], ?_⟩
    intro v hv
    rcases List.mem_cons.mp hv with rfl | hv
    · exact ⟨i, rfl⟩
    · exact hall v hv

theorem exceptMapM_vint_ok (gl : List GTValue)
    (hall : ∀ v ∈ gl, ∃ i, v = GTValue.vint i) :
    ∃ ints, exceptMapM
      (fun v => match v with
        | .vint i => .ok i
        | _ => .error Err.invalidInput) gl = .ok ints := by
  induction gl with
  | nil => exact ⟨[], rfl⟩
  | cons v l ih =>
    obtain ⟨ints, hints⟩ := ih (fun x hx => hall x (List.mem_cons_of_mem v hx))
    obtain ⟨i, rfl⟩ := hall v (List.mem_cons_self v l)
    exact ⟨i :: ints, by simp [exceptMapM, ebind, hints]⟩

theorem torch_default_collate_gt_ok (gl : List GTValue) (hne : gl ≠ [])
    (hall : ∀ v ∈ gl, ∃ i, v = GTValue.vint i) :
    ∃ ints, torch_default_collate_gt gl = .ok ints := by
  cases gl with
  | nil => exact absurd rfl hne
  | cons v l =>
    obtain ⟨ints, hints⟩ := exceptMapM_vint_ok (v :: l) hall
    exact ⟨ints, by rw [torch_default_collate_gt]; exact hints⟩

theorem le_foldr_max {l : List Nat} {a : Nat} (h : a ∈ l) :
    a ≤ l.foldr max 0 := by
  induction l with
  | nil => cases h
  | cons x xs ih =>
    rcases List.mem_cons.mp h with rfl | h
    · exact le_max_left _ _
    · exact le_trans (ih h) (le_max_right _ _)

theorem pad_right_collate_ok (lst : List AudioDataSample) (hne : lst ≠ [])
    (hgt : ∀ s ∈ lst, ∃ i, s.ground_truth_container "speaker_id_idx" = some (.vint i)) :
    ∃ gt, SpeakerClassificationDataBatch.pad_right_collate_fn lst =
      .ok
        { batch_size := lst.length
          keys := lst.map (fun s => s.key)
          audio_input :=
            { data := collate_append_constant (lst.map (fun s => s.audio))
              device := "cpu" }
          audio_input_lengths := lst.map (fun s => s.audio.length)
          ground_truth := { data := gt, device := "cpu" }
          debug_info := lst.map (fun s => (s.key, s.debug_info)) } := by
  obtain ⟨gl, hgl, hlen, hall⟩ := gts_ok lst hgt
  have hglne : gl ≠ [] := by
    intro hnil
    apply hne
    rw [hnil] at hlen
    exact List.length_eq_zero.mp hlen.symm
  obtain ⟨ints, hints⟩ := torch_default_collate_gt_ok gl hglne hall
  refine ⟨ints, ?_⟩
  cases lst with
  | nil => exact absurd rfl hne
  | cons s l =>
    unfold SpeakerClassificationDataBatch.pad_right_collate_fn
    simp only [List.map_cons, torch_default_collate_str, ebind_ok, hgl, hints]

theorem pad_right_ok_inv (lst : List AudioDataSample)
    (b : SpeakerClassificationDataBatch)
    (h : SpeakerClassificationDataBatch.pad_right_collate_fn lst = .ok b) :
    b.batch_size = lst.length ∧ b.keys = lst.map (fun s => s.key) ∧
    b.audio_input.data = collate_append_constant (lst.map (fun s => s.audio)) ∧
    b.audio_input_lengths = lst.map (fun s => s.audio.length) := by
  unfold SpeakerClassificationDataBatch.pad_right_collate_fn at h
  cases hk : torch_default_collate_str (lst.map (fun s => s.key)) with
  | error e => simp only [hk, ebind_error] at h; exact Except.noConfusion h
  | ok keys =>
    simp only [hk, ebind_ok] at h
    cases hg : exceptMapM SpeakerClassificationDataBatch.get_gt_container lst with
    | error e => simp only [hg, ebind_error] at h; exact Except.noConfusion h
    | ok gts =>
      simp only [hg, ebind_ok] at h
      cases hgt2 : torch_default_collate_gt gts with
      | error e => simp only [hgt2, ebind_error] at h; exact Except.noConfusion h
      | ok gt =>
        simp only [hgt2, ebind_ok] at h
        cases h
        exact ⟨rfl, torch_default_collate_str_ok _ _ hk, rfl, rfl⟩

theorem default_collate_ok_inv (lst : List AudioDataSample)
    (b : SpeakerClassificationDataBatch)
    (h : SpeakerClassificationDataBatch.default_collate_fn lst = .ok b) :
    b.batch_size = lst.length ∧ b.keys = lst.map (fun s => s.key) ∧
    b.audio_input.data = lst.map (fun s => s.audio) ∧
    b.audio_input_lengths = lst.map (fun s => s.audio.length) := by
  unfold SpeakerClassificationDataBatch.default_collate_fn at h
  cases hk : torch_default_collate_str (lst.map (fun s => s.key)) with
  | error e => simp only [hk, ebind_error] at h; exact Except.noConfusion h
  | ok keys =>
    simp only [hk, ebind_ok] at h
    cases ha : torch_default_collate_audio (lst.map (fun s => s.audio)) with
    | error e => simp only [ha, ebind_error] at h; exact Except.noConfusion h
    | ok audio =>
      simp only [ha, ebind_ok] at h
      cases hg : exceptMapM SpeakerClassificationDataBatch.get_gt_container lst with
      | error e => simp only [hg, ebind_error] at h; exact Except.noConfusion h
      | ok gts =>
        simp only [hg, ebind_ok] at h
        cases hgt2 : torch_default_collate_gt gts with
        | error e => simp only [hgt2, ebind_error] at h; exact Except.noConfusion h
        | ok gt =>
          simp only [hgt2, ebind_ok] at h
          cases h
          exact ⟨rfl, torch_default_collate_str_ok _ _ hk,
            torch_default_collate_audio_ok _ _ ha, rfl⟩

/-
Claim theorems.
-/

/-- C2: for every non-empty list of N variable-length samples (whose speaker
ground truth has been stored), pad-right collation produces a batch whose
audio array has leading dimension N, whose padding-axis length equals the
maximum input length over the batch, and whose recorded lengths list equals
each sample's pre-padding length in input order. -/
theorem C2_pad_right_collate_shape (lst : List AudioDataSample) (hne : lst ≠ [])
    (hgt : ∀ s ∈ lst, ∃ i, s.ground_truth_container "speaker_id_idx" = some (.vint i)) :
    ∃ b, SpeakerClassificationDataBatch.pad_right_collate_fn lst = .ok b ∧
      b.audio_input.data.length = lst.length ∧
      (∀ row ∈ b.audio_input.data,
        row.length = maxAudioLen (lst.map (fun s => s.audio))) ∧
      b.audio_input_lengths = lst.map (fun s => s.audio.length) := by
  obtain ⟨gt, hok⟩ := pad_right_collate_ok lst hne hgt
  refine ⟨_, hok, ?_, ?_, rfl⟩
  · simp [collate_append_constant]
  · intro row hrow
    rw [collate_append_constant] at hrow
    obtain ⟨a, ha, rfl⟩ := List.mem_map.mp hrow
    have hmem : a.length ∈ (lst.map (fun s => s.audio)).map List.length :=
      List.mem_map_of_mem List.length ha
    have hle : a.length ≤ maxAudioLen (lst.map (fun s => s.audio)) := by
      rw [maxAudioLen]
      exact le_foldr_max hmem
    simp only [List.length_append, List.length_replicate]
    exact Nat.add_sub_cancel' hle

/-- C3: pad-right collation appends (never prepends) the zero fill: for every
batch index i, the first `audio_input_lengths[i]` entries of row i of the
collated audio array are exactly the i-th sample's original content, and all
entries past that prefix are the constant zero fill. -/
theorem C3_pad_right_collate_prefix (lst : List AudioDataSample) (hne : lst ≠ [])
    (hgt : ∀ s ∈ lst, ∃ i, s.ground_truth_container "speaker_id_idx" = some (.vint i)) :
    ∃ b, SpeakerClassificationDataBatch.pad_right_collate_fn lst = .ok b ∧
      ∀ (i : Nat) (hi : i < lst.length), ∃ (row : List ℚ) (n : Nat),
        b.audio_input.data[i]? = some row ∧
        b.audio_input_lengths[i]? = some n ∧
        row.take n = lst[i].audio ∧
        row.drop n =
          List.replicate (maxAudioLen (lst.map (fun s => s.audio)) - n) 0 := by
  obtain ⟨gt, hok⟩ := pad_right_collate_ok lst hne hgt
  refine ⟨_, hok, ?_⟩
  intro i hi
  have hgetlst : lst[i]? = some lst[i] := List.getElem?_eq_getElem hi
  refine ⟨lst[i].audio ++
    List.replicate
      (maxAudioLen (lst.map (fun s => s.audio)) - lst[i].audio.length) 0,
    lst[i].audio.length, ?_, ?_, ?_, ?_⟩
  · show (collate_append_constant (lst.map (fun s => s.audio)))[i]? = _
    rw [collate_append_constant]
    simp only [List.getElem?_map, hgetlst, Option.map_some]
    rfl
  · show (lst.map (fun s => s.audio.length))[i]? = _
    simp only [List.getElem?_map, hgetlst, Option.map_some]
    rfl
  · exact List.take_left _ _
  · rw [List.drop_left]

/-- C4: every batch produced by either collation mode satisfies
`len(keys) == len(audio_input_lengths) == batch_size`, and the audio array's
leading dimension equals `batch_size`. -/
theorem C4_collate_invariant (lst : List AudioDataSample)
    (b : SpeakerClassificationDataBatch)
    (h : SpeakerClassificationDataBatch.default_collate_fn lst = .ok b ∨
      SpeakerClassificationDataBatch.pad_right_collate_fn lst = .ok b) :
    b.keys.length = b.batch_size ∧
    b.audio_input_lengths.length = b.batch_size ∧
    b.audio_input.data.length = b.batch_size := by
  rcases h with h | h
  · obtain ⟨hbs, hkeys, hdata, hlens⟩ := default_collate_ok_inv lst b h
    rw [hbs, hkeys, hdata, hlens]
    simp
  · obtain ⟨hbs, hkeys, hdata, hlens⟩ := pad_right_ok_inv lst b h
    rw [hbs, hkeys, hdata, hlens]
    simp [collate_append_constant]

/-- C5: collating an empty list of samples is invalid: both collation
functions fail (inside the first `default_collate` call, on `batch[0]`,
modelled as `invalidInput`) and return no batch. -/
theorem C5_empty_batch_invalid :
    SpeakerClassificationDataBatch.default_collate_fn [] =
      .error .invalidInput ∧
    SpeakerClassificationDataBatch.pad_right_collate_fn [] =
      .error .invalidInput :=
  ⟨rfl, rfl⟩

/-- C6: default-mode collation requires all samples to already have equal
length: when all audio arrays have identical shape it stacks them along a new
leading axis, and it fails whenever two samples' array shapes differ. -/
theorem C6_default_collate_equal_length (lst : List AudioDataSample) :
    (lst ≠ [] →
      (∀ s ∈ lst, ∃ i, s.ground_truth_container "speaker_id_idx" = some (.vint i)) →
      (∀ s1 ∈ lst, ∀ s2 ∈ lst, s1.audio.length = s2.audio.length) →
      ∃ b, SpeakerClassificationDataBatch.default_collate_fn lst = .ok b ∧
        b.audio_input.data = lst.map (fun s => s.audio)) ∧
    ((∃ s1 ∈ lst, ∃ s2 ∈ lst, s1.audio.length ≠ s2.audio.length) →
      SpeakerClassificationDataBatch.default_collate_fn lst =
        .error .invalidInput) := by
  constructor
  · intro hne hgt heq
    obtain ⟨gl, hgl, hlen, hall⟩ := gts_ok lst hgt
    have hglne : gl ≠ [] := by
      intro hnil
      apply hne
      rw [hnil] at hlen
      exact List.length_eq_zero.mp hlen.symm
    obtain ⟨ints, hints⟩ := torch_default_collate_gt_ok gl hglne hall
    cases lst with
    | nil => exact absurd rfl hne
    | cons s l =>
      have haudio : torch_default_collate_audio ((s :: l).map (fun x => x.audio)) =
          .ok ((s :: l).map (fun x => x.audio)) := by
        rw [List.map_cons, torch_default_collate_audio, if_pos]
        rw [List.all_eq_true]
        intro y hy
        obtain ⟨x, hx, rfl⟩ := List.mem_map.mp hy
        exact beq_iff_eq.mpr
          (heq x (List.mem_cons_of_mem s hx) s (List.mem_cons_self s l))
      refine
        ⟨{ batch_size := (s :: l).length
           keys := (s :: l).map (fun x => x.key)
           audio_input := { data := (s :: l).map (fun x => x.audio), device := "cpu" }
           audio_input_lengths := (s :: l).map (fun x => x.audio.length)
           ground_truth := { data := ints, device := "cpu" }
           debug_info := (s :: l).map (fun x => (x.key, x.debug_info)) }, ?_, rfl⟩
      unfold SpeakerClassificationDataBatch.default_collate_fn
      simp only [List.map_cons, torch_default_collate_str, ebind_ok, hgl, hints]
      rw [← List.map_cons, haudio, ebind_ok]
  · rintro ⟨s1, hs1, s2, hs2, hne12⟩
    have hne : lst ≠ [] := by
      intro hnil
      rw [hnil] at hs1
      cases hs1
    cases lst with
    | nil => exact absurd rfl hne
    | cons s l =>
      have haudio : torch_default_collate_audio ((s :: l).map (fun x => x.audio)) =
          .error .invalidInput := by
        rw [List.map_cons, torch_default_collate_audio, if_neg]
        rw [List.all_eq_true]
        intro hallEq
        have hkey : ∀ x ∈ s :: l, x.audio.length = s.audio.length := by
          intro x hx
          rcases List.mem_cons.mp hx with rfl | hx
          · rfl
          · exact beq_iff_eq.mp
              (hallEq _ (List.mem_map_of_mem (fun x => x.audio) hx))
        exact hne12 ((hkey s1 hs1).trans (hkey s2 hs2).symm)
      unfold SpeakerClassificationDataBatch.default_collate_fn
      simp only [List.map_cons, torch_default_collate_str, ebind_ok]
      rw [← List.map_cons, haudio, ebind_error]

/-- C8: `to(device)` changes only the `audio_input` and `ground_truth`
tensors (moving them to the target device, with their data unchanged); the
`batch_size`, `keys`, `audio_input_lengths`, `debug_info` (and for speech
batches the `ground_truth_strings` and `ground_truth_sequence_length`) fields
of the returned batch are unchanged. -/
theorem C8_to_frame_effect :
    (∀ (b : SpeakerClassificationDataBatch) (d : Device),
      (b.to d).batch_size = b.batch_size ∧
      (b.to d).keys = b.keys ∧
      (b.to d).audio_input_lengths = b.audio_input_lengths ∧
      (b.to d).debug_info = b.debug_info ∧
      (b.to d).audio_input.data = b.audio_input.data ∧
      (b.to d).audio_input.device = d ∧
      (b.to d).ground_truth.data = b.ground_truth.data ∧
      (b.to d).ground_truth.device = d) ∧
    (∀ (b : SpeechRecognitionDataBatch) (d : Device),
      (b.to d).batch_size = b.batch_size ∧
      (b.to d).keys = b.keys ∧
      (b.to d).audio_input_lengths = b.audio_input_lengths ∧
      (b.to d).ground_truth_sequence_length = b.ground_truth_sequence_length ∧
      (b.to d).ground_truth_strings = b.ground_truth_strings ∧
      (b.to d).debug_info = b.debug_info ∧
      (b.to d).audio_input.data = b.audio_input.data ∧
      (b.to d).audio_input.device = d ∧
      (b.to d).ground_truth.data = b.ground_truth.data ∧
      (b.to d).ground_truth.device = d) :=
  ⟨fun _ _ => ⟨rfl, rfl, rfl, rfl, rfl, rfl, rfl, rfl⟩,
   fun _ _ => ⟨rfl, rfl, rfl, rfl, rfl, rfl, rfl, rfl, rfl, rfl⟩⟩

/-- C9: the ground-truth container accessors round-trip: after
`set_gt_container` stores the speaker id (respectively the transcription and
its integer sequence, under the precondition that the sequence's length
equals the transcription's length), `get_gt_container` returns exactly the
stored value(s); and `get_gt_container` fails with an error when the expected
key was never stored. -/
theorem C9_gt_container_round_trip :
    (∀ (s : AudioDataSample) (i : Int),
      SpeakerClassificationDataBatch.get_gt_container
        (SpeakerClassificationDataBatch.set_gt_container s i) = .ok (.vint i)) ∧
    (∀ s : AudioDataSample,
      s.ground_truth_container "speaker_id_idx" = none →
      SpeakerClassificationDataBatch.get_gt_container s =
        .error (.valueError "expected key speaker_id_idx in data sample object")) ∧
    (∀ (s : AudioDataSample) (tr : String) (seq : List Int),
      seq.length = tr.length →
      ∃ s2, SpeechRecognitionDataBatch.set_gt_container s tr seq = .ok s2 ∧
        SpeechRecognitionDataBatch.get_gt_container s2 =
          .ok (.vstr tr, .vseq seq)) ∧
    (∀ s : AudioDataSample,
      (s.ground_truth_container "transcription" = none →
        ∃ e, SpeechRecognitionDataBatch.get_gt_container s = .error e) ∧
      (s.ground_truth_container "transcription_int_sequence" = none →
        ∃ e, SpeechRecognitionDataBatch.get_gt_container s = .error e)) := by
  refine ⟨?_, ?_, ?_, ?_⟩
  · intro s i
    simp [SpeakerClassificationDataBatch.get_gt_container,
      SpeakerClassificationDataBatch.set_gt_container, dictSet]
  · intro s h
    rw [SpeakerClassificationDataBatch.get_gt_container, h]
  · intro s tr seq hlen
    refine
      ⟨{ s with
         ground_truth_container :=
           dictSet
             (dictSet s.ground_truth_container "transcription" (.vstr tr))
             "transcription_int_sequence" (.vseq seq) }, ?_, ?_⟩
    · rw [SpeechRecognitionDataBatch.set_gt_container, if_pos hlen]
    · simp [SpeechRecognitionDataBatch.get_gt_container, dictSet]
  · intro s
    constructor
    · intro h
      cases hseq : s.ground_truth_container "transcription_int_sequence" with
      | none =>
        exact ⟨_, by rw [SpeechRecognitionDataBatch.get_gt_container, h]⟩
      | some v =>
        exact ⟨_, by rw [SpeechRecognitionDataBatch.get_gt_container, h]⟩
    · intro h
      cases htr : s.ground_truth_container "transcription" with
      | none =>
        exact ⟨_, by rw [SpeechRecognitionDataBatch.get_gt_container, htr]⟩
      | some v =>
        exact
          ⟨.valueError "expected key transcription_int_sequence in data sample object",
           by rw [SpeechRecognitionDataBatch.get_gt_container, htr, h]⟩

theorem ebind_eq_ok {α β : Type} {x : Except Err α} {f : α → Except Err β}
    {b : β} (h : ebind x f = .ok b) : ∃ a, x = .ok a ∧ f a = .ok b := by
  cases x with
  | error e => rw [ebind_error] at h; exact Except.noConfusion h
  | ok a => exact ⟨a, rfl, h⟩

theorem extract_batch_single_ok (d : StepOutput) (rows : List (List ℚ))
    (hd : d.embedding = .single rows)
    (hlen : d.sample_id.length = rows.length) :
    extract_batch d =
      .ok ((d.sample_id.zip rows).map
        (fun p => { sample_id := p.1, embedding := .one p.2 })) := by
  simp [extract_batch, hd, hlen]

theorem extract_batch_single_mismatch (d : StepOutput) (rows : List (List ℚ))
    (hd : d.embedding = .single rows)
    (hlen : d.sample_id.length ≠ rows.length) :
    extract_batch d = .error .shapeMismatch := by
  simp [extract_batch, hd, hlen]

theorem extract_mapM_shape_mismatch (outputs : List StepOutput)
    (hsingle : ∀ d ∈ outputs, ∃ rows, d.embedding = EmbTensor.single rows)
    (hbad : ∃ d ∈ outputs, ∃ rows, d.embedding = EmbTensor.single rows ∧
      d.sample_id.length ≠ rows.length) :
    exceptMapM extract_batch outputs = .error .shapeMismatch := by
  induction outputs with
  | nil =>
    obtain ⟨d, hd, _⟩ := hbad
    cases hd
  | cons d ds ih =>
    obtain ⟨rows, hd⟩ := hsingle d (List.mem_cons_self d ds)
    by_cases hlen : d.sample_id.length = rows.length
    · have hok := extract_batch_single_ok d rows hd hlen
      have hbad2 : ∃ x ∈ ds, ∃ rows, x.embedding = EmbTensor.single rows ∧
          x.sample_id.length ≠ rows.length := by
        obtain ⟨x, hx, rows2, hxr, hxlen⟩ := hbad
        rcases List.mem_cons.mp hx with rfl | hx
        · rw [hd] at hxr
          cases hxr
          exact absurd hlen hxlen
        · exact ⟨x, hx, rows2, hxr, hxlen⟩
      have herr := ih (fun x hx => hsingle x (List.mem_cons_of_mem d hx)) hbad2
      simp [exceptMapM, ebind, hok, herr]
    · have herr := extract_batch_single_mismatch d rows hd hlen
      simp [exceptMapM, ebind, herr]

/-- C1: for every list of per-batch outputs (each carrying a single embedding
array), if any batch's key-list length disagrees with its embedding array's
leading dimension, extraction fails with the shape-mismatch error and neither
an embedding list nor an evaluation result is returned to the caller. -/
theorem C1_extract_shape_mismatch (outputs : List StepOutput)
    (evaluate : List EvaluationPair → List EmbeddingSample → Bool → EvalResult)
    (pairs : List EvaluationPair) (print_info : Bool)
    (hsingle : ∀ d ∈ outputs, ∃ rows, d.embedding = EmbTensor.single rows)
    (hbad : ∃ d ∈ outputs, ∃ rows, d.embedding = EmbTensor.single rows ∧
      d.sample_id.length ≠ rows.length) :
    extract_embedding_sample_list outputs = .error .shapeMismatch ∧
    evaluate_embeddings evaluate outputs pairs print_info =
      .error .shapeMismatch := by
  have h := extract_mapM_shape_mismatch outputs hsingle hbad
  have hex : extract_embedding_sample_list outputs = .error .shapeMismatch := by
    rw [extract_embedding_sample_list, h, ebind_error]
  exact ⟨hex, by rw [evaluate_embeddings, hex, ebind_error]⟩

/-- C7: for every named test partition, the record handed to the logging
collaborator contains both an EER value and an EER threshold for that
partition (fields `test_eer_{name}` and `test_eer_threshold_{name}`), assuming
the framework delivered one output list per partition. -/
theorem C7_test_epoch_end_fields
    (evaluate : List EvaluationPair → List EmbeddingSample → Bool → EvalResult)
    (test_pairs : List (List EvaluationPair)) (test_names : List String)
    (outputs : List (List StepOutput)) (dict : List (String × ℚ))
    (hnames : test_names.length = outputs.length)
    (hpairs : test_pairs.length = outputs.length)
    (hok : test_epoch_end evaluate test_pairs test_names outputs = .ok dict) :
    ∀ name ∈ test_names,
      (∃ v, ("test_eer_" ++ name, v) ∈ dict) ∧
      (∃ v, ("test_eer_threshold_" ++ name, v) ∈ dict) := by
  intro name hname
  obtain ⟨i, hi, hgetname⟩ := List.mem_iff_getElem.mp hname
  rw [test_epoch_end] at hok
  obtain ⟨entries, hm, hflat⟩ := ebind_eq_ok hok
  cases hflat
  have hirange : i ∈ List.range outputs.length :=
    List.mem_range.mpr (hnames ▸ hi)
  obtain ⟨y, hy, hfy⟩ := exceptMapM_ok_mem _ _ entries hm i hirange
  have hnamei : test_names.get? i = some name := by
    rw [List.get?_eq_getElem?, List.getElem?_eq_getElem hi, hgetname]
  have hpi : i < test_pairs.length := hpairs ▸ hnames ▸ hi
  have hpairsi : test_pairs.get? i = some test_pairs[i] := by
    rw [List.get?_eq_getElem?, List.getElem?_eq_getElem hpi]
  simp only [hnamei, hpairsi] at hfy
  obtain ⟨r, _, hr⟩ := ebind_eq_ok hfy
  cases hr
  refine ⟨⟨r.eer, ?_⟩, ⟨r.eer_threshold, ?_⟩⟩
  · exact List.mem_flatten.mpr ⟨_, hy, by simp⟩
  · exact List.mem_flatten.mpr ⟨_, hy, by simp⟩

/-- C10: `test_step` rejects any batch whose `batch_size` is not 1 by raising
an error before computing an embedding (for every embedding network); for a
batch of size 1 whose embedding comes back 1-dimensional with extent
`speaker_embedding_size`, it reshapes it into a 2-dimensional
`[1, speaker_embedding_size]` tensor and returns the sample's keys together
with the (stacked, cpu-moved) embedding data. -/
theorem C10_test_step (compute : Tensor2 → PTensor) (sz : Nat)
    (batch : SpeakerClassificationDataBatch) :
    (batch.batch_size ≠ 1 →
      test_step compute sz batch =
        .error (.valueError "expecting a batch size of 1 for evaluation")) ∧
    (batch.batch_size = 1 →
      ∀ (v : List ℚ) (dev : Device),
        compute batch.audio_input = { shape := [sz], data := v, device := dev } →
        ({ shape := [sz], data := v, device := dev } : PTensor).unsqueeze0 =
          { shape := [1, sz], data := v, device := dev } ∧
        test_step compute sz batch =
          .ok { embedding := { shape := [1, 1, sz], data := v, device := "cpu" }
                sample_id := batch.keys }) := by
  constructor
  · intro hbs
    rw [test_step, if_pos hbs]
  · intro hbs v dev hcomp
    refine ⟨rfl, ?_⟩
    rw [test_step, if_neg (by simp [hbs])]
    simp [hcomp, hbs, PTensor.unsqueeze0]

/-
Witnesses: each applies its claim theorem at a concrete input.
-/

/-- Witness for C1 at a one-batch output whose 2 keys disagree with the
single embedding row. -/
theorem C1_witness :
    extract_embedding_sample_list [outMismatch] = .error .shapeMismatch ∧
    evaluate_embeddings evalConst [outMismatch] [] true =
      .error .shapeMismatch :=
  C1_extract_shape_mismatch [outMismatch] evalConst [] true
    (by
      intro d hd
      rw [List.mem_singleton] at hd
      subst hd
      exact ⟨[[1, 2]], rfl⟩)
    ⟨outMismatch, List.mem_singleton_self _, [[1, 2]], rfl, by decide⟩

/-- Witness for C2 at the spec's example batch with lengths [5, 8, 3]. -/
theorem C2_witness :
    ∃ b, SpeakerClassificationDataBatch.pad_right_collate_fn wlist583 = .ok b ∧
      b.audio_input.data.length = 3 ∧
      (∀ row ∈ b.audio_input.data, row.length = 8) ∧
      b.audio_input_lengths = [5, 8, 3] := by
  obtain ⟨b, hok, h1, h2, h3⟩ :=
    C2_pad_right_collate_shape wlist583 (by simp [wlist583])
      (by
        intro s hs
        simp only [wlist583, List.mem_cons, List.not_mem_nil, or_false] at hs
        rcases hs with rfl | rfl | rfl <;> exact ⟨0, rfl⟩)
  refine ⟨b, hok, ?_, ?_, ?_⟩
  · rw [h1]; rfl
  · intro row hrow
    rw [h2 row hrow]; rfl
  · rw [h3]; rfl

/-- Witness for C3 at a two-sample batch with lengths [2, 3], row 0: prefix
[4, 5], one trailing zero. -/
theorem C3_witness :
    ∃ b, SpeakerClassificationDataBatch.pad_right_collate_fn wlist23 = .ok b ∧
      ∃ row n, b.audio_input.data[0]? = some row ∧
        b.audio_input_lengths[0]? = some n ∧
        row.take n = [4, 5] ∧
        row.drop n = List.replicate 1 0 := by
  obtain ⟨b, hok, hprop⟩ :=
    C3_pad_right_collate_prefix wlist23 (by simp [wlist23])
      (by
        intro s hs
        simp only [wlist23, List.mem_cons, List.not_mem_nil, or_false] at hs
        rcases hs with rfl | rfl <;> exact ⟨0, rfl⟩)
  have h0 : (0 : Nat) < wlist23.length := by rw [wlist23]; decide
  obtain ⟨row, n, hr, hn, htake, hdrop⟩ := hprop 0 h0
  have hlens : b.audio_input_lengths = [2, 3] := by
    rw [(pad_right_ok_inv wlist23 b hok).2.2.2]; rfl
  rw [hlens] at hn
  have hn2 : n = 2 := (Option.some.inj hn).symm
  subst hn2
  refine ⟨b, hok, row, 2, hr, by rw [hlens]; rfl, ?_, ?_⟩
  · rw [htake]; rfl
  · rw [hdrop]; rfl

/-- Witness for C4 at a batch of size 1: leading dimension 1. -/
theorem C4_witness :
    SpeakerClassificationDataBatch.default_collate_fn [mkSample "a" [1]] =
      .ok batchA ∧
    batchA.keys.length = batchA.batch_size ∧
    batchA.audio_input_lengths.length = batchA.batch_size ∧
    batchA.audio_input.data.length = batchA.batch_size := by
  have h : SpeakerClassificationDataBatch.default_collate_fn [mkSample "a" [1]] =
      .ok batchA := rfl
  exact ⟨h, C4_collate_invariant [mkSample "a" [1]] batchA (Or.inl h)⟩

/-- Witness for C6: equal lengths stack; unequal lengths fail. -/
theorem C6_witness :
    (∃ b, SpeakerClassificationDataBatch.default_collate_fn
        [mkSample "a" [1], mkSample "b" [2]] = .ok b ∧
      b.audio_input.data = [[1], [2]]) ∧
    SpeakerClassificationDataBatch.default_collate_fn
        [mkSample "a" [1], mkSample "c" [3, 4]] = .error .invalidInput := by
  constructor
  · obtain ⟨b, hok, hdata⟩ :=
      (C6_default_collate_equal_length [mkSample "a" [1], mkSample "b" [2]]).1
        (by simp)
        (by
          intro s hs
          simp only [List.mem_cons, List.not_mem_nil, or_false] at hs
          rcases hs with rfl | rfl <;> exact ⟨0, rfl⟩)
        (by
          intro s1 h1 s2 h2
          simp only [List.mem_cons, List.not_mem_nil, or_false] at h1 h2
          rcases h1 with rfl | rfl <;> rcases h2 with rfl | rfl <;> rfl)
    exact ⟨b, hok, by rw [hdata]; rfl⟩
  · exact
      (C6_default_collate_equal_length [mkSample "a" [1], mkSample "c" [3, 4]]).2
        ⟨mkSample "a" [1], by simp, mkSample "c" [3, 4], by simp, by decide⟩

/-- Witness for C7: one partition named `x`, one well-formed batch. -/
theorem C7_witness :
    (∃ v, ("test_eer_x", v) ∈ dictW) ∧
    (∃ v, ("test_eer_threshold_x", v) ∈ dictW) := by
  have hok : test_epoch_end evalConst [[]] ["x"] [[outOk]] = .ok dictW := rfl
  exact
    C7_test_epoch_end_fields evalConst [[]] ["x"] [[outOk]] dictW rfl rfl hok
      "x" (by simp)

/-- Witness for C9 at a sample with an empty container. -/
theorem C9_witness :
    SpeakerClassificationDataBatch.get_gt_container
      (SpeakerClassificationDataBatch.set_gt_container blankSample 7) =
        .ok (.vint 7) ∧
    SpeakerClassificationDataBatch.get_gt_container blankSample =
      .error (.valueError "expected key speaker_id_idx in data sample object") ∧
    (∃ s2, SpeechRecognitionDataBatch.set_gt_container blankSample "ab" [10, 11] =
        .ok s2 ∧
      SpeechRecognitionDataBatch.get_gt_container s2 =
        .ok (.vstr "ab", .vseq [10, 11])) ∧
    (∃ e, SpeechRecognitionDataBatch.get_gt_container blankSample = .error e) :=
  ⟨C9_gt_container_round_trip.1 blankSample 7,
   C9_gt_container_round_trip.2.1 blankSample rfl,
   C9_gt_container_round_trip.2.2.1 blankSample "ab" [10, 11] (by decide),
   (C9_gt_container_round_trip.2.2.2 blankSample).1 rfl⟩

/-- Witness for C10: a size-2 batch is rejected; a size-1 batch with a 1-D
embedding of extent 3 is reshaped and returned. -/
theorem C10_witness :
    test_step computeW 3 batchW2 =
      .error (.valueError "expecting a batch size of 1 for evaluation") ∧
    (({ shape := [3], data := [5, 6, 7], device := "cuda" } : PTensor).unsqueeze0 =
      { shape := [1, 3], data := [5, 6, 7], device := "cuda" } ∧
    test_step computeW 3 batchW1 =
      .ok { embedding := { shape := [1, 1, 3], data := [5, 6, 7], device := "cpu" }
            sample_id := batchW1.keys }) :=
  ⟨(C10_test_step computeW 3 batchW2).1 (by decide),
   (C10_test_step computeW 3 batchW1).2 rfl [5, 6, 7] "cuda" rfl⟩

end SpecProof
